import Mathlib

/-!
The mrpt_reactivenav2d ROS node

A shallow embedding of `mrpt_reactivenav2d/src/mrpt_reactivenav2d_node.cpp`.

* The node's member variables that the handlers read or write form the record
  `ReactiveNav2DNode`; every handler is a function from that record (and its
  message) to the new record and the list of `Effect`s the handler performs, in
  program order: taking and dropping a critical section, a call into the
  navigation engine, a query to the tf listener, a message published on
  `cmd_vel`.
* The navigation engine (`CReactiveNavigationSystem`) is an external
  collaborator: a call into it is recorded as an effect, what the engine does
  inside the call is not modelled.
* The tf listener is external as well: a query either gives a value or throws
  `tf::TransformException`, which is `Except.error` here.
* The code only copies scalars and writes the constant zero, so the scalar
  carrier is a type parameter `R` (with a zero) that stands for the values of
  a `double`; a `float` holds those of them that single precision represents.
  A copy from `float` to `double`, or between two variables of one type, is
  exact and is the identity. The one copy from `double` to `float`, the
  tolerance in `navigateTo`, rounds: it goes through the parameter `toFloat`.
* Logging (`ROS_INFO`, `ROS_DEBUG`, `ROS_ERROR`) and profiling
  (`CTimeLoggerEntry`) lines are left out.
-/

namespace ReactiveNav2D

/-! ## Messages and geometric records -/

/-- The record geometry_msgs/Point (and Point32): three coordinates. -/
structure Point (R : Type) where
  x : R
  y : R
  z : R
  deriving DecidableEq

/-- The record geometry_msgs/Quaternion. -/
structure Quaternion (R : Type) where
  x : R
  y : R
  z : R
  w : R
  deriving DecidableEq

/-- The record geometry_msgs/Pose. -/
structure Pose (R : Type) where
  position : Point R
  orientation : Quaternion R
  deriving DecidableEq

/-- The record std_msgs/Header, reduced to the frame id the node reads. -/
structure Header where
  frame_id : String
  deriving DecidableEq

/-- The record geometry_msgs/PoseStamped. -/
structure PoseStamped (R : Type) where
  header : Header
  pose : Pose R
  deriving DecidableEq

/-- The record geometry_msgs/Polygon: a sequence of Point32. -/
structure Polygon (R : Type) where
  points : List (Point R)
  deriving DecidableEq

/-- The record sensor_msgs/PointCloud. -/
structure PointCloud (R : Type) where
  header : Header
  points : List (Point R)
  deriving DecidableEq

/-- The record geometry_msgs/Vector3. -/
structure Vector3 (R : Type) where
  x : R
  y : R
  z : R
  deriving DecidableEq

/-- The record geometry_msgs/Twist. -/
structure Twist (R : Type) where
  linear : Vector3 R
  angular : Vector3 R
  deriving DecidableEq

/-- Modelled from the spec: the default constructor of geometry_msgs::Twist,
whose generated header is not among the sources. The spec's velocity is the pair
(linear, angular) alone, so a fresh command carries nothing in any component:
each one starts at zero, as the constructors written by the ROS message
generator leave it. -/
def Twist.ctor {R : Type} [Zero R] : Twist R :=
  { linear := { x := 0, y := 0, z := 0 }, angular := { x := 0, y := 0, z := 0 } }

/-- The record mrpt::math::TPoint2D. -/
structure TPoint2D (R : Type) where
  x : R
  y : R
  deriving DecidableEq

/-- The record mrpt::math::TPose2D: a planar position and a heading. -/
structure TPose2D (R : Type) where
  x : R
  y : R
  phi : R
  deriving DecidableEq

/-- The class mrpt::poses::CPose2D. -/
structure CPose2D (R : Type) where
  x : R
  y : R
  phi : R
  deriving DecidableEq

/-- The class mrpt::poses::CPose3D, by its six coordinates. -/
structure CPose3D (R : Type) where
  x : R
  y : R
  z : R
  yaw : R
  pitch : R
  roll : R
  deriving DecidableEq

/-- The class mrpt::math::CPolygon: the vertices in order. -/
abbrev CPolygon (R : Type) := List (TPoint2D R)

/-- The class mrpt::slam::CSimplePointsMap: the stored points. -/
abbrev CSimplePointsMap (R : Type) := List (Point R)

/-- The navigation request (TNavigationParams), by the fields navigateTo
assigns; the fields it does not assign keep their default-constructed values
and are not part of the record. In the engine's header, which is not among the
sources, target holds two double and targetAllowedDistance is a float. -/
structure TNavigationParams (R : Type) where
  target : TPoint2D R
  targetAllowedDistance : R
  targetIsRelative : Bool
  deriving DecidableEq

/-- Modelled from the spec: the converting constructor CPose2D(const CPose3D&) of
mrpt::poses, whose code is not among the sources. The spec (data model, Pose2D;
testable properties, pose projection) says the planar pose takes x, y and yaw of
the 3-D pose and discards z, roll and pitch. -/
def CPose2D.ofCPose3D {R : Type} (p : CPose3D R) : CPose2D R :=
  { x := p.x, y := p.y, phi := p.yaw }

/-- Modelled from the spec: mrpt_bridge::point_cloud::ros2mrpt(msg, obj), whose
code is not among the sources. The spec (data model, ObstacleSet; ObstacleBuffer,
setLatest) says the stored set is fully replaced, not merged, on every received
sample: the result holds the points of the message and nothing of the previous
content of obj. -/
def ros2mrpt {R : Type} (msg : PointCloud R) (_obj : CSimplePointsMap R) :
    CSimplePointsMap R :=
  msg.points

/-! ## External collaborators -/

/-- The exception tf::TransformException, by its what() text. -/
structure TransformException where
  what : String
  deriving DecidableEq

/-- The state of the tf listener at the moment of a query: what each of the
two queries the node makes answers. T stands for tf::StampedTransform. -/
structure TransformListener (R T : Type) where
  lookupTransform : String → String → Except TransformException T
  transformPose : String → PoseStamped R → Except TransformException (PoseStamped R)

/-! ## Effects -/

/-- The two critical sections of the node. -/
inductive Lock where
  | m_reactive_nav_engine_cs
  | m_last_obstacles_cs
  deriving DecidableEq

/-- A call into the navigation engine m_reactive_nav_engine. The first
constructor stands for the engine method initialize(). -/
inductive EngineCall (R : Type) where
  | initialize_
  | navigationStep
  | navigate (navParams : TNavigationParams R)
  | changeRobotShape (poly : CPolygon R)
  deriving DecidableEq

/-- What a handler does to the world outside the node record, one step at a
time. acquire and release are the construction and the end of scope of a
CCriticalSectionLocker. -/
inductive Effect (R : Type) where
  | acquire (cs : Lock)
  | release (cs : Lock)
  | engine (call : EngineCall R)
  | lookupTransform (target_frame source_frame : String)
  | transformPose (target_frame : String) (pin : PoseStamped R)
  | publish (cmd : Twist R)
  deriving DecidableEq

/-- The effect is the engine call initialize(). -/
def Effect.isInitialize {R : Type} : Effect R → Bool
  | Effect.engine EngineCall.initialize_ => true
  | _ => false

/-- The effect is the engine call navigationStep(). -/
def Effect.isNavigationStep {R : Type} : Effect R → Bool
  | Effect.engine EngineCall.navigationStep => true
  | _ => false

/-- The effect is an engine call navigate(). -/
def Effect.isNavigate {R : Type} : Effect R → Bool
  | Effect.engine (EngineCall.navigate _) => true
  | _ => false

/-- The effect is an engine call changeRobotShape(). -/
def Effect.isChangeRobotShape {R : Type} : Effect R → Bool
  | Effect.engine (EngineCall.changeRobotShape _) => true
  | _ => false

/-- The effect is a query to the tf listener. -/
def Effect.isTfQuery {R : Type} : Effect R → Bool
  | Effect.lookupTransform _ _ => true
  | Effect.transformPose _ _ => true
  | _ => false

/-- The effect is a message published on cmd_vel. -/
def Effect.isPublish {R : Type} : Effect R → Bool
  | Effect.publish _ => true
  | _ => false

/-- The engine calls of a trace, in order. -/
def engineCalls {R : Type} : List (Effect R) → List (EngineCall R)
  | [] => []
  | Effect.engine call :: rest => call :: engineCalls rest
  | _ :: rest => engineCalls rest

/-- The engine calls of a trace made while the engine lock is not held, in
order; held says whether the lock is held where the trace starts. -/
def unlockedEngineCallsFrom {R : Type} : Bool → List (Effect R) → List (EngineCall R)
  | _, [] => []
  | _, Effect.acquire Lock.m_reactive_nav_engine_cs :: rest =>
      unlockedEngineCallsFrom true rest
  | _, Effect.release Lock.m_reactive_nav_engine_cs :: rest =>
      unlockedEngineCallsFrom false rest
  | held, Effect.engine call :: rest =>
      if held then unlockedEngineCallsFrom held rest
      else call :: unlockedEngineCallsFrom held rest
  | held, _ :: rest => unlockedEngineCallsFrom held rest

/-- The engine calls a handler makes without holding the engine lock: a
handler starts with the lock not held by it. -/
def unlockedEngineCalls {R : Type} (trace : List (Effect R)) : List (EngineCall R) :=
  unlockedEngineCallsFrom false trace

/-- The engine calls of a trace made while the engine lock is held. -/
def lockedEngineCallsFrom {R : Type} : Bool → List (Effect R) → List (EngineCall R)
  | _, [] => []
  | _, Effect.acquire Lock.m_reactive_nav_engine_cs :: rest =>
      lockedEngineCallsFrom true rest
  | _, Effect.release Lock.m_reactive_nav_engine_cs :: rest =>
      lockedEngineCallsFrom false rest
  | held, Effect.engine call :: rest =>
      if held then call :: lockedEngineCallsFrom held rest
      else lockedEngineCallsFrom held rest
  | held, _ :: rest => lockedEngineCallsFrom held rest

/-- The engine calls a handler makes while it holds the engine lock. -/
def lockedEngineCalls {R : Type} (trace : List (Effect R)) : List (EngineCall R) :=
  lockedEngineCallsFrom false trace

/-! ## The node -/

/-- The member variables of ReactiveNav2DNode that its handlers read or
write. -/
structure ReactiveNav2DNode (R : Type) where
  m_1st_time_init : Bool
  m_target_allowed_distance : R
  m_frameid_reference : String
  m_frameid_robot : String
  m_last_obstacles : CSimplePointsMap R
  deriving DecidableEq

/-- The values of the private parameters once the constructor has read them
(each one the parameter server's value, or the default of the initialiser
list). -/
structure Params (R : Type) where
  target_allowed_distance : R
  frameid_reference : String
  frameid_robot : String

/-- The node record at the end of the constructor: m_1st_time_init(false) from
the initialiser list, the parameters as loaded, and the default-constructed,
empty obstacle map (the obstacle subscriber is created after the constructor's
own spinOnce loop, so no obstacle message is handled before). -/
def ReactiveNav2DNode.ctor {R : Type} (p : Params R) : ReactiveNav2DNode R :=
  { m_1st_time_init := false
    m_target_allowed_distance := p.target_allowed_distance
    m_frameid_reference := p.frameid_reference
    m_frameid_robot := p.frameid_robot
    m_last_obstacles := [] }

/-! ### The engine's interface (MyReactiveInterface) -/

/-- What getCurrentPoseAndSpeeds hands back: the return value, the three
reference arguments after the call, and the effects of the call. -/
structure PoseAndSpeeds (R : Type) where
  ret : Bool
  curPose : CPose2D R
  curV : R
  curW : R
  trace : List (Effect R)
  deriving DecidableEq

/-- The method MyReactiveInterface::getCurrentPoseAndSpeeds. The result is in
Except so that an exception leaving the function would show as an error;
convert is mrpt_bridge::convert from a tf transform to a CPose3D. -/
def getCurrentPoseAndSpeeds {R T : Type} [Zero R] (m_tf_listener : TransformListener R T)
    (convert : T → CPose3D R) (m_parent : ReactiveNav2DNode R)
    (curPose : CPose2D R) (curV curW : R) : Except TransformException (PoseAndSpeeds R) :=
  let query : Effect R :=
    Effect.lookupTransform m_parent.m_frameid_reference m_parent.m_frameid_robot
  match m_tf_listener.lookupTransform m_parent.m_frameid_reference m_parent.m_frameid_robot with
  | Except.error _ex =>
      Except.ok { ret := false, curPose := curPose, curV := curV, curW := curW, trace := [query] }
  | Except.ok txRobotPose =>
      let curRobotPose := convert txRobotPose
      Except.ok { ret := true, curPose := CPose2D.ofCPose3D curRobotPose, curV := 0, curW := 0,
                  trace := [query] }

/-- The method MyReactiveInterface::changeSpeeds: the return value and the
effects. -/
def changeSpeeds {R : Type} [Zero R] (v w : R) : Bool × List (Effect R) :=
  let cmd : Twist R := Twist.ctor
  let cmd := { cmd with linear := { cmd.linear with x := v } }
  let cmd := { cmd with angular := { cmd.angular with z := w } }
  (true, [Effect.publish cmd])

/-- What senseObstacles hands back: the return value, the reference argument
after the call, the node record after the call, and the effects. -/
structure SensedObstacles (R : Type) where
  ret : Bool
  obstacles : CSimplePointsMap R
  parent : ReactiveNav2DNode R
  trace : List (Effect R)
  deriving DecidableEq

/-- The method MyReactiveInterface::senseObstacles. -/
def senseObstacles {R : Type} (m_parent : ReactiveNav2DNode R)
    (_obstacles : CSimplePointsMap R) : SensedObstacles R :=
  { ret := true
    obstacles := m_parent.m_last_obstacles
    parent := m_parent
    trace := [Effect.acquire Lock.m_last_obstacles_cs, Effect.release Lock.m_last_obstacles_cs] }

/-! ### The handlers -/

/-- The method ReactiveNav2DNode::navigateTo. toFloat is the conversion from
double to float the compiler inserts where the double m_target_allowed_distance
is assigned to the float field targetAllowedDistance. -/
def navigateTo {R : Type} (toFloat : R → R) (n : ReactiveNav2DNode R) (target : TPose2D R) :
    ReactiveNav2DNode R × List (Effect R) :=
  let navParams : TNavigationParams R :=
    { target := { x := target.x, y := target.y }
      targetAllowedDistance := toFloat n.m_target_allowed_distance
      targetIsRelative := false }
  (n, [Effect.acquire Lock.m_reactive_nav_engine_cs,
       Effect.engine (EngineCall.navigate navParams),
       Effect.release Lock.m_reactive_nav_engine_cs])

/-- The timer callback ReactiveNav2DNode::onDoNavigation. -/
def onDoNavigation {R : Type} (n : ReactiveNav2DNode R) :
    ReactiveNav2DNode R × List (Effect R) :=
  if !n.m_1st_time_init then
    ({ n with m_1st_time_init := true },
      [Effect.acquire Lock.m_reactive_nav_engine_cs,
       Effect.engine EngineCall.initialize_,
       Effect.release Lock.m_reactive_nav_engine_cs,
       Effect.engine EngineCall.navigationStep])
  else
    (n, [Effect.engine EngineCall.navigationStep])

/-- The goal callback ReactiveNav2DNode::onRosGoalReceived. -/
def onRosGoalReceived {R T : Type} (toFloat : R → R)
    (m_tf_listener : TransformListener R T)
    (n : ReactiveNav2DNode R) (trg_ptr : PoseStamped R) :
    ReactiveNav2DNode R × List (Effect R) :=
  let trg := trg_ptr
  if trg.header.frame_id ≠ n.m_frameid_reference then
    match m_tf_listener.transformPose n.m_frameid_reference trg with
    | Except.error _ex => (n, [Effect.transformPose n.m_frameid_reference trg])
    | Except.ok trg2 =>
        let r := navigateTo toFloat n
          { x := trg2.pose.position.x, y := trg2.pose.position.y, phi := trg2.pose.orientation.z }
        (r.1, Effect.transformPose n.m_frameid_reference trg :: r.2)
  else
    navigateTo toFloat n
      { x := trg.pose.position.x, y := trg.pose.position.y, phi := trg.pose.orientation.z }

/-- The obstacle callback ReactiveNav2DNode::onRosLocalObstacles. -/
def onRosLocalObstacles {R : Type} (n : ReactiveNav2DNode R) (obs : PointCloud R) :
    ReactiveNav2DNode R × List (Effect R) :=
  ({ n with m_last_obstacles := ros2mrpt obs n.m_last_obstacles },
    [Effect.acquire Lock.m_last_obstacles_cs, Effect.release Lock.m_last_obstacles_cs])

/-- The shape callback ReactiveNav2DNode::onRosSetRobotShape: the polygon gets
one vertex for each point of the message, with that point's x and y. -/
def onRosSetRobotShape {R : Type} (n : ReactiveNav2DNode R) (newShape : Polygon R) :
    ReactiveNav2DNode R × List (Effect R) :=
  let poly : CPolygon R := newShape.points.map (fun p => { x := p.x, y := p.y })
  (n, [Effect.acquire Lock.m_reactive_nav_engine_cs,
       Effect.engine (EngineCall.changeRobotShape poly),
       Effect.release Lock.m_reactive_nav_engine_cs])

/-! ### Runs of the node -/

/-- One callback dispatched by ros::spin. A goal carries the state of the tf
listener at the moment it is handled. -/
inductive NodeEvent (R T : Type) where
  | timer
  | goal (m_tf_listener : TransformListener R T) (trg : PoseStamped R)
  | obstacles (obs : PointCloud R)
  | shape (newShape : Polygon R)

/-- The event is a timer tick. -/
def NodeEvent.isTimer {R T : Type} : NodeEvent R T → Bool
  | NodeEvent.timer => true
  | _ => false

/-- The handler ros::spin runs for one event. -/
def step {R T : Type} (toFloat : R → R) (n : ReactiveNav2DNode R) : NodeEvent R T →
    ReactiveNav2DNode R × List (Effect R)
  | NodeEvent.timer => onDoNavigation n
  | NodeEvent.goal m_tf_listener trg => onRosGoalReceived toFloat m_tf_listener n trg
  | NodeEvent.obstacles obs => onRosLocalObstacles n obs
  | NodeEvent.shape newShape => onRosSetRobotShape n newShape

/-- The node record after a sequence of events and the effects of all their
handlers, in order. -/
def run {R T : Type} (toFloat : R → R) (n : ReactiveNav2DNode R) : List (NodeEvent R T) →
    ReactiveNav2DNode R × List (Effect R)
  | [] => (n, [])
  | e :: rest =>
      let r := step toFloat n e
      let r2 := run toFloat r.1 rest
      (r2.1, r.2 ++ r2.2)

/-- The node record after a sequence of obstacle messages. -/
def deliverObstacles {R : Type} (n : ReactiveNav2DNode R) (msgs : List (PointCloud R)) :
    ReactiveNav2DNode R :=
  msgs.foldl (fun m obs => (onRosLocalObstacles m obs).1) n

/-! ### Concrete data for the worked instances -/

/-- The number of low bits a natural number loses when it is cut to the 24
significant bits of a float: the least e with m / 2 ^ e below 2 ^ 24, searched
over at most fuel halvings. -/
def droppedBits : Nat → Nat → Nat
  | 0, _ => 0
  | fuel + 1, m => if m < 2 ^ 24 then 0 else droppedBits fuel (m / 2) + 1

/-- A natural number rounded to 24 significant bits, to nearest, ties to the
even significand: the float nearest to it, for the numbers whose nearest float
is finite (those below 2 ^ 128 - 2 ^ 103). -/
def natToFloat (m : Nat) : Nat :=
  let e := droppedBits 128 m
  let q := m / 2 ^ e
  let r := m % 2 ^ e
  if 2 * r < 2 ^ e then q * 2 ^ e
  else if 2 * r = 2 ^ e ∧ q % 2 = 0 then q * 2 ^ e
  else (q + 1) * 2 ^ e

/-- The conversion from double to float on integer values: the magnitude is
rounded by natToFloat, the sign is kept. -/
def intToFloat (x : Int) : Int :=
  if x < 0 then -((natToFloat x.natAbs : Nat) : Int) else ((natToFloat x.natAbs : Nat) : Int)

/-- A parameter set whose tolerance, 2 ^ 24 + 1, is a double that no float
holds. -/
def wideParams : Params Int :=
  { target_allowed_distance := 16777217, frameid_reference := "/map",
    frameid_robot := "base_link" }

/-- A parameter set: tolerance 2, the default frame names. -/
def exampleParams : Params Int :=
  { target_allowed_distance := 2, frameid_reference := "/map", frameid_robot := "base_link" }

/-- A tf listener whose queries all throw. -/
def failingListener : TransformListener Int (CPose3D Int) :=
  { lookupTransform := fun _ _ => Except.error { what := "lookup failed" }
    transformPose := fun _ _ => Except.error { what := "transform failed" } }

/-- A tf listener that places the robot at (1, 2, 3) with yaw 4, pitch 5 and
roll 6, and moves a pose into the target frame by adding 10 to x and 20 to y. -/
def workingListener : TransformListener Int (CPose3D Int) :=
  { lookupTransform := fun _ _ =>
      Except.ok { x := 1, y := 2, z := 3, yaw := 4, pitch := 5, roll := 6 }
    transformPose := fun target pin =>
      Except.ok
        { header := { frame_id := target }
          pose := { position := { x := pin.pose.position.x + 10, y := pin.pose.position.y + 20,
                                  z := pin.pose.position.z }
                    orientation := pin.pose.orientation } } }

/-- A tf listener that differs from workingListener in z, pitch and roll of the
robot pose only. -/
def tiltedListener : TransformListener Int (CPose3D Int) :=
  { lookupTransform := fun _ _ =>
      Except.ok { x := 1, y := 2, z := 30, yaw := 4, pitch := 50, roll := 60 }
    transformPose := workingListener.transformPose }

/-- A goal at (7, 8, 9) with the given frame id and orientation component z. -/
def exampleGoal (frame : String) (qz : Int) : PoseStamped Int :=
  { header := { frame_id := frame }
    pose := { position := { x := 7, y := 8, z := 9 }
              orientation := { x := 0, y := 0, z := qz, w := 1 } } }

/-- A goal at the same x and y as exampleGoal, in /map, with another z and
another orientation. -/
def exampleGoalTurned : PoseStamped Int :=
  { header := { frame_id := "/map" }
    pose := { position := { x := 7, y := 8, z := 100 }
              orientation := { x := 1, y := 0, z := 5, w := 0 } } }

/-- An obstacle message with the given points. -/
def exampleCloud (pts : List (Point Int)) : PointCloud Int :=
  { header := { frame_id := "base_link" }, points := pts }

/-- A run of the node: a shape message, a goal in another frame, a first timer
tick, an obstacle message, a second timer tick. -/
def exampleEvents : List (NodeEvent Int (CPose3D Int)) :=
  [NodeEvent.shape { points := [] },
   NodeEvent.goal workingListener (exampleGoal "odom" 3),
   NodeEvent.timer,
   NodeEvent.obstacles (exampleCloud [{ x := 1, y := 1, z := 0 }]),
   NodeEvent.timer]

/-! ## Lemmas on runs -/

/-- A run over two event lists in a row is the run over the first followed by
the run over the second from where the first ended. -/
theorem run_append {R T : Type} (toFloat : R → R) (n : ReactiveNav2DNode R)
    (a b : List (NodeEvent R T)) :
    run toFloat n (a ++ b) =
      ((run toFloat (run toFloat n a).1 b).1,
        (run toFloat n a).2 ++ (run toFloat (run toFloat n a).1 b).2) := by
  induction a generalizing n with
  | nil => simp [run]
  | cons e rest ih => simp [run, ih, List.append_assoc]

/-- No handler clears the first-time-init flag. -/
theorem step_keeps_flag {R T : Type} (toFloat : R → R) (m : ReactiveNav2DNode R) (e : NodeEvent R T)
    (h : m.m_1st_time_init = true) : (step toFloat m e).1.m_1st_time_init = true := by
  cases e with
  | timer => simp [step, onDoNavigation, h]
  | goal tf trg =>
      simp only [step, onRosGoalReceived, navigateTo]
      split
      · split <;> simp [h]
      · simp [h]
  | obstacles obs => simp [step, onRosLocalObstacles, h]
  | shape sh => simp [step, onRosSetRobotShape, h]

/-- No run clears the first-time-init flag. -/
theorem run_keeps_flag {R T : Type} (toFloat : R → R) (m : ReactiveNav2DNode R) (evs : List (NodeEvent R T))
    (h : m.m_1st_time_init = true) : (run toFloat m evs).1.m_1st_time_init = true := by
  induction evs generalizing m with
  | nil => simpa [run] using h
  | cons e rest ih => simpa [run] using ih _ (step_keeps_flag toFloat m e h)

/-- With the flag set, a handler does not call initialize(). -/
theorem step_no_initialize {R T : Type} (toFloat : R → R) (m : ReactiveNav2DNode R) (e : NodeEvent R T)
    (h : m.m_1st_time_init = true) : ∀ x ∈ (step toFloat m e).2, x.isInitialize = false := by
  cases e with
  | timer => simp [step, onDoNavigation, h, Effect.isInitialize]
  | goal tf trg =>
      simp only [step, onRosGoalReceived, navigateTo]
      split
      · split <;> simp [Effect.isInitialize]
      · simp [Effect.isInitialize]
  | obstacles obs => simp [step, onRosLocalObstacles, Effect.isInitialize]
  | shape sh => simp [step, onRosSetRobotShape, Effect.isInitialize]

/-- With the flag set, a run does not call initialize(). -/
theorem run_no_initialize {R T : Type} (toFloat : R → R) (m : ReactiveNav2DNode R) (evs : List (NodeEvent R T))
    (h : m.m_1st_time_init = true) : ∀ x ∈ (run toFloat m evs).2, x.isInitialize = false := by
  induction evs generalizing m with
  | nil => simp [run]
  | cons e rest ih =>
      intro x hx
      simp only [run, List.mem_append] at hx
      rcases hx with hx | hx
      · exact step_no_initialize toFloat m e h x hx
      · exact ih _ (step_keeps_flag toFloat m e h) x hx

/-- A handler other than the timer callback leaves the flag as it is and calls
neither initialize() nor navigationStep(). -/
theorem step_not_timer {R T : Type} (toFloat : R → R) (m : ReactiveNav2DNode R) (e : NodeEvent R T)
    (h : e.isTimer = false) :
    (step toFloat m e).1.m_1st_time_init = m.m_1st_time_init ∧
      ∀ x ∈ (step toFloat m e).2, x.isInitialize = false ∧ x.isNavigationStep = false := by
  cases e with
  | timer => simp [NodeEvent.isTimer] at h
  | goal tf trg =>
      simp only [step, onRosGoalReceived, navigateTo]
      split
      · split <;> simp [Effect.isInitialize, Effect.isNavigationStep]
      · simp [Effect.isInitialize, Effect.isNavigationStep]
  | obstacles obs =>
      simp [step, onRosLocalObstacles, Effect.isInitialize, Effect.isNavigationStep]
  | shape sh =>
      simp [step, onRosSetRobotShape, Effect.isInitialize, Effect.isNavigationStep]

/-- A run without a timer tick leaves the flag as it is and calls neither
initialize() nor navigationStep(). -/
theorem run_not_timer {R T : Type} (toFloat : R → R) (m : ReactiveNav2DNode R) (evs : List (NodeEvent R T))
    (h : ∀ e ∈ evs, e.isTimer = false) :
    (run toFloat m evs).1.m_1st_time_init = m.m_1st_time_init ∧
      ∀ x ∈ (run toFloat m evs).2, x.isInitialize = false ∧ x.isNavigationStep = false := by
  induction evs generalizing m with
  | nil => simp [run]
  | cons e rest ih =>
      have he := step_not_timer toFloat m e (h e (List.mem_cons_self _ _))
      have hr := ih (step toFloat m e).1 (fun e2 h2 => h e2 (List.mem_cons_of_mem _ h2))
      refine ⟨by simpa [run] using hr.1.trans he.1, ?_⟩
      intro x hx
      simp only [run, List.mem_append] at hx
      rcases hx with hx | hx
      · exact he.2 x hx
      · exact hr.2 x hx

/-- A sequence of events that holds a timer tick splits at its first one. -/
theorem exists_first_timer {R T : Type} (evs : List (NodeEvent R T))
    (h : NodeEvent.timer ∈ evs) :
    ∃ pre post, evs = pre ++ NodeEvent.timer :: post ∧ ∀ e ∈ pre, e.isTimer = false := by
  induction evs with
  | nil => simp at h
  | cons e rest ih =>
      cases hE : e.isTimer with
      | true =>
          refine ⟨[], rest, ?_, by simp⟩
          cases e <;> simp [NodeEvent.isTimer] at hE ⊢
      | false =>
          have hmem : NodeEvent.timer ∈ rest := by
            rcases List.mem_cons.mp h with h1 | h1
            · rw [← h1] at hE
              simp [NodeEvent.isTimer] at hE
            · exact h1
          obtain ⟨pre, post, hsplit, hpre⟩ := ih hmem
          refine ⟨e :: pre, post, by simp [hsplit], ?_⟩
          intro e2 h2
          rcases List.mem_cons.mp h2 with h3 | h3
          · rw [h3]; exact hE
          · exact hpre e2 h3

/-- A list none of whose members satisfies a test has none to count. -/
theorem countP_eq_zero_of_forall {α : Type} (p : α → Bool) (l : List α)
    (h : ∀ x ∈ l, p x = false) : l.countP p = 0 := by
  rw [List.countP_eq_zero]
  intro x hx
  simp [h x hx]

/-- After a non-empty sequence of obstacle messages the stored set is the
conversion of the last one. -/
theorem deliverObstacles_concat {R : Type} (n : ReactiveNav2DNode R)
    (earlier : List (PointCloud R)) (last : PointCloud R) :
    (deliverObstacles n (earlier ++ [last])).m_last_obstacles = ros2mrpt last [] := by
  simp [deliverObstacles, List.foldl_append, onRosLocalObstacles, ros2mrpt]

/-! ## The claims -/

/-- C1: in every run that starts with the first-time-init flag clear (as the
constructor leaves it) and holds at least one timer tick, the engine's
initialize() is called exactly once; the call is made by the first timer tick,
whose effects are: take the engine lock, initialize(), drop the lock,
navigationStep(); nothing before that tick calls initialize() or
navigationStep(), and nothing after it calls initialize(). No handler and no
interface method sets the flag back to false once it is true. -/
theorem initialize_once_on_first_tick {R T : Type} (toFloat : R → R)
    (n : ReactiveNav2DNode R)
    (evs : List (NodeEvent R T)) (h0 : n.m_1st_time_init = false)
    (ht : NodeEvent.timer ∈ evs) :
    (∃ pre post, evs = pre ++ NodeEvent.timer :: post ∧
      (∀ e ∈ pre, e.isTimer = false) ∧
      (∀ x ∈ (run toFloat n pre).2, x.isInitialize = false ∧ x.isNavigationStep = false) ∧
      (onDoNavigation (run toFloat n pre).1).2 =
        [Effect.acquire Lock.m_reactive_nav_engine_cs,
         Effect.engine EngineCall.initialize_,
         Effect.release Lock.m_reactive_nav_engine_cs,
         Effect.engine EngineCall.navigationStep] ∧
      (∀ x ∈ (run toFloat (onDoNavigation (run toFloat n pre).1).1 post).2,
        x.isInitialize = false) ∧
      (run toFloat n evs).2 =
        (run toFloat n pre).2 ++ ((onDoNavigation (run toFloat n pre).1).2 ++
          (run toFloat (onDoNavigation (run toFloat n pre).1).1 post).2)) ∧
    (run toFloat n evs).2.countP Effect.isInitialize = 1 ∧
    (∀ (m : ReactiveNav2DNode R) (e : NodeEvent R T),
      m.m_1st_time_init = true → (step toFloat m e).1.m_1st_time_init = true) ∧
    (∀ (m : ReactiveNav2DNode R) (es : List (NodeEvent R T)),
      m.m_1st_time_init = true → (run toFloat m es).1.m_1st_time_init = true) ∧
    (∀ (m : ReactiveNav2DNode R) (o : CSimplePointsMap R),
      (senseObstacles m o).parent.m_1st_time_init = m.m_1st_time_init) := by
  obtain ⟨pre, post, hsplit, hpre⟩ := exists_first_timer evs ht
  have hbefore := run_not_timer toFloat n pre hpre
  have hflag : (run toFloat n pre).1.m_1st_time_init = false := hbefore.1.trans h0
  have htick : (onDoNavigation (run toFloat n pre).1).2 =
      [Effect.acquire Lock.m_reactive_nav_engine_cs,
       Effect.engine EngineCall.initialize_,
       Effect.release Lock.m_reactive_nav_engine_cs,
       Effect.engine EngineCall.navigationStep] := by
    simp [onDoNavigation, hflag]
  have hset : (onDoNavigation (run toFloat n pre).1).1.m_1st_time_init = true := by
    simp [onDoNavigation, hflag]
  have hafter := run_no_initialize toFloat (onDoNavigation (run toFloat n pre).1).1 post hset
  have htrace : (run toFloat n evs).2 =
      (run toFloat n pre).2 ++ ((onDoNavigation (run toFloat n pre).1).2 ++
        (run toFloat (onDoNavigation (run toFloat n pre).1).1 post).2) := by
    rw [hsplit, run_append]
    simp [run, step]
  refine ⟨⟨pre, post, hsplit, hpre, hbefore.2, htick, hafter, htrace⟩, ?_,
    fun m e h => step_keeps_flag toFloat m e h, fun m es h => run_keeps_flag toFloat m es h,
    fun m o => rfl⟩
  rw [htrace, List.countP_append, List.countP_append,
    countP_eq_zero_of_forall _ _ (fun x hx => (hbefore.2 x hx).1),
    countP_eq_zero_of_forall _ _ hafter, htick]
  simp [List.countP_cons, Effect.isInitialize]

/-- C1 at a concrete run: from the constructed node, a shape message, a goal, a
timer tick, an obstacle message and a second timer tick call initialize()
once. -/
theorem initialize_once_on_first_tick_witness :
    (ReactiveNav2DNode.ctor exampleParams).m_1st_time_init = false ∧
    NodeEvent.timer ∈ exampleEvents ∧
    (run intToFloat (ReactiveNav2DNode.ctor exampleParams) exampleEvents).2.countP
      Effect.isInitialize = 1 :=
  ⟨rfl, by simp [exampleEvents],
    (initialize_once_on_first_tick intToFloat (ReactiveNav2DNode.ctor exampleParams)
      exampleEvents rfl
      (by simp [exampleEvents])).2.1⟩

/-- C2: a goal whose frame id equals the reference frame is handed to
navigateTo with its own position x and y, and the tf listener is not queried; a
goal in another frame whose transformPose succeeds is handed to navigateTo with
the x and y of the transformed pose, after the one query; a goal in another
frame whose transformPose throws ends the handler after the query, with no call
of navigateTo and no engine call at all. -/
theorem goal_frame_reconciliation {R T : Type} (toFloat : R → R)
    (m_tf_listener : TransformListener R T)
    (n : ReactiveNav2DNode R) (trg : PoseStamped R) :
    (trg.header.frame_id = n.m_frameid_reference →
      onRosGoalReceived toFloat m_tf_listener n trg =
        navigateTo toFloat n
          { x := trg.pose.position.x, y := trg.pose.position.y,
            phi := trg.pose.orientation.z } ∧
      (onRosGoalReceived toFloat m_tf_listener n trg).2.filter Effect.isTfQuery = [] ∧
      engineCalls (onRosGoalReceived toFloat m_tf_listener n trg).2 =
        [EngineCall.navigate
          { target := { x := trg.pose.position.x, y := trg.pose.position.y }
            targetAllowedDistance := toFloat n.m_target_allowed_distance
            targetIsRelative := false }]) ∧
    (trg.header.frame_id ≠ n.m_frameid_reference →
      ∀ trg2, m_tf_listener.transformPose n.m_frameid_reference trg = Except.ok trg2 →
        (onRosGoalReceived toFloat m_tf_listener n trg).1 =
          (navigateTo toFloat n
            { x := trg2.pose.position.x, y := trg2.pose.position.y,
              phi := trg2.pose.orientation.z }).1 ∧
        (onRosGoalReceived toFloat m_tf_listener n trg).2 =
          Effect.transformPose n.m_frameid_reference trg ::
            (navigateTo toFloat n
              { x := trg2.pose.position.x, y := trg2.pose.position.y,
                phi := trg2.pose.orientation.z }).2 ∧
        engineCalls (onRosGoalReceived toFloat m_tf_listener n trg).2 =
          [EngineCall.navigate
            { target := { x := trg2.pose.position.x, y := trg2.pose.position.y }
              targetAllowedDistance := toFloat n.m_target_allowed_distance
              targetIsRelative := false }]) ∧
    (trg.header.frame_id ≠ n.m_frameid_reference →
      ∀ ex, m_tf_listener.transformPose n.m_frameid_reference trg = Except.error ex →
        onRosGoalReceived toFloat m_tf_listener n trg =
          (n, [Effect.transformPose n.m_frameid_reference trg]) ∧
        engineCalls (onRosGoalReceived toFloat m_tf_listener n trg).2 = [] ∧
        (onRosGoalReceived toFloat m_tf_listener n trg).2.countP Effect.isNavigate = 0) := by
  refine ⟨?_, ?_, ?_⟩
  · intro h
    simp [onRosGoalReceived, h, navigateTo, engineCalls, Effect.isTfQuery]
  · intro h trg2 h2
    simp [onRosGoalReceived, h, h2, navigateTo, engineCalls]
  · intro h ex h2
    simp [onRosGoalReceived, h, h2, engineCalls, Effect.isNavigate]

/-- C2 at concrete goals, for the node as constructed with reference frame
/map: a goal at (7, 8) in /map is navigated to at (7, 8) with no tf query; the
same goal in odom, which the listener moves to (17, 28), is navigated to at
(17, 28); with a listener that throws it reaches no engine call. -/
theorem goal_frame_reconciliation_witness :
    engineCalls (onRosGoalReceived intToFloat failingListener (ReactiveNav2DNode.ctor exampleParams)
        (exampleGoal "/map" 3)).2 =
      ([EngineCall.navigate { target := { x := 7, y := 8 }, targetAllowedDistance := 2,
                              targetIsRelative := false }] : List (EngineCall Int)) ∧
    (onRosGoalReceived intToFloat failingListener (ReactiveNav2DNode.ctor exampleParams)
        (exampleGoal "/map" 3)).2.filter Effect.isTfQuery = [] ∧
    engineCalls (onRosGoalReceived intToFloat workingListener (ReactiveNav2DNode.ctor exampleParams)
        (exampleGoal "odom" 3)).2 =
      ([EngineCall.navigate { target := { x := 17, y := 28 }, targetAllowedDistance := 2,
                              targetIsRelative := false }] : List (EngineCall Int)) ∧
    engineCalls (onRosGoalReceived intToFloat failingListener (ReactiveNav2DNode.ctor exampleParams)
        (exampleGoal "odom" 3)).2 = [] :=
  ⟨((goal_frame_reconciliation intToFloat failingListener (ReactiveNav2DNode.ctor exampleParams)
      (exampleGoal "/map" 3)).1 (by decide)).2.2,
   ((goal_frame_reconciliation intToFloat failingListener (ReactiveNav2DNode.ctor exampleParams)
      (exampleGoal "/map" 3)).1 (by decide)).2.1,
   ((goal_frame_reconciliation intToFloat workingListener (ReactiveNav2DNode.ctor exampleParams)
      (exampleGoal "odom" 3)).2.1 (by decide) _ rfl).2.2,
   ((goal_frame_reconciliation intToFloat failingListener (ReactiveNav2DNode.ctor exampleParams)
      (exampleGoal "odom" 3)).2.2 (by decide) _ rfl).2.1⟩

/-- C3: the timer callback calls navigationStep() without holding the engine
lock, on the first tick (after the lock taken for initialize() has been
dropped) and on every later tick (where no lock is taken at all); the other
engine calls are made with the lock held: initialize() in the timer callback,
navigate() in navigateTo and changeRobotShape() in onRosSetRobotShape. -/
theorem navigationStep_outside_engine_lock {R : Type} (toFloat : R → R)
    (n : ReactiveNav2DNode R) :
    unlockedEngineCalls (onDoNavigation n).2 = [EngineCall.navigationStep] ∧
    lockedEngineCalls (onDoNavigation n).2 =
      (if n.m_1st_time_init then [] else [EngineCall.initialize_]) ∧
    (∀ target : TPose2D R,
      unlockedEngineCalls (navigateTo toFloat n target).2 = [] ∧
      lockedEngineCalls (navigateTo toFloat n target).2 =
        engineCalls (navigateTo toFloat n target).2) ∧
    (∀ newShape : Polygon R,
      unlockedEngineCalls (onRosSetRobotShape n newShape).2 = [] ∧
      lockedEngineCalls (onRosSetRobotShape n newShape).2 =
        engineCalls (onRosSetRobotShape n newShape).2) := by
  refine ⟨?_, ?_, ?_, ?_⟩
  · cases h : n.m_1st_time_init <;>
      simp [onDoNavigation, h, unlockedEngineCalls, unlockedEngineCallsFrom]
  · cases h : n.m_1st_time_init <;>
      simp [onDoNavigation, h, lockedEngineCalls, lockedEngineCallsFrom]
  · intro target
    simp [navigateTo, unlockedEngineCalls, unlockedEngineCallsFrom, lockedEngineCalls,
      lockedEngineCallsFrom, engineCalls]
  · intro newShape
    simp [onRosSetRobotShape, unlockedEngineCalls, unlockedEngineCallsFrom, lockedEngineCalls,
      lockedEngineCallsFrom, engineCalls]

/-- C4, the claim fails: for the empty polygon and for a polygon of two
vertices, both with fewer than 3 vertices, onRosSetRobotShape calls the engine's
changeRobotShape once. -/
theorem degenerate_shape_reaches_engine :
    (Polygon.mk ([] : List (Point Int))).points.length < 3 ∧
    (onRosSetRobotShape (ReactiveNav2DNode.ctor exampleParams)
      (Polygon.mk [])).2.countP Effect.isChangeRobotShape = 1 ∧
    (Polygon.mk [({ x := 0, y := 0, z := 0 } : Point Int),
      { x := 1, y := 0, z := 0 }]).points.length < 3 ∧
    engineCalls (onRosSetRobotShape (ReactiveNav2DNode.ctor exampleParams)
      (Polygon.mk [{ x := 0, y := 0, z := 0 }, { x := 1, y := 0, z := 0 }])).2 =
      ([EngineCall.changeRobotShape [{ x := 0, y := 0 }, { x := 1, y := 0 }]] :
        List (EngineCall Int)) := by
  decide

/-- C4 as amended: for every shape message, whatever its number of vertices,
onRosSetRobotShape calls the engine's changeRobotShape exactly once, with the
engine lock held, on the polygon that has one vertex for each point of the
message, in order, with that point's x and y; it makes no other engine call and
leaves the node record as it is. -/
theorem shape_always_forwarded {R : Type} (n : ReactiveNav2DNode R) (newShape : Polygon R) :
    (onRosSetRobotShape n newShape).2.countP Effect.isChangeRobotShape = 1 ∧
    engineCalls (onRosSetRobotShape n newShape).2 =
      [EngineCall.changeRobotShape
        (newShape.points.map (fun p => ({ x := p.x, y := p.y } : TPoint2D R)))] ∧
    (newShape.points.map (fun p => ({ x := p.x, y := p.y } : TPoint2D R))).length =
      newShape.points.length ∧
    unlockedEngineCalls (onRosSetRobotShape n newShape).2 = [] ∧
    (onRosSetRobotShape n newShape).1 = n := by
  simp [onRosSetRobotShape, engineCalls, unlockedEngineCalls, unlockedEngineCallsFrom,
    List.countP_cons, Effect.isChangeRobotShape]

/-- C5: getCurrentPoseAndSpeeds always returns normally (no exception leaves
it); it returns false exactly when the lookup of the robot frame in the
reference frame throws; when it returns false, curPose, curV and curW are the
values they had before the call; and its only effect, in either case, is the
one tf query: it publishes no velocity command. -/
theorem getCurrentPoseAndSpeeds_false_iff_lookup_fails {R T : Type} [Zero R]
    (m_tf_listener : TransformListener R T) (convert : T → CPose3D R)
    (n : ReactiveNav2DNode R) (curPose : CPose2D R) (curV curW : R) :
    ∃ r, getCurrentPoseAndSpeeds m_tf_listener convert n curPose curV curW = Except.ok r ∧
      (r.ret = false ↔
        ∃ ex, m_tf_listener.lookupTransform n.m_frameid_reference n.m_frameid_robot =
          Except.error ex) ∧
      (r.ret = false → r.curPose = curPose ∧ r.curV = curV ∧ r.curW = curW) ∧
      r.trace = [Effect.lookupTransform n.m_frameid_reference n.m_frameid_robot] ∧
      r.trace.countP Effect.isPublish = 0 := by
  cases h : m_tf_listener.lookupTransform n.m_frameid_reference n.m_frameid_robot with
  | error ex =>
      refine ⟨{ ret := false, curPose := curPose, curV := curV, curW := curW,
                trace := [Effect.lookupTransform n.m_frameid_reference n.m_frameid_robot] },
        ?_, ?_, ?_, rfl, ?_⟩
      · simp only [getCurrentPoseAndSpeeds, h]
      · simp
      · simp
      · simp [Effect.isPublish]
  | ok tx =>
      refine ⟨{ ret := true, curPose := CPose2D.ofCPose3D (convert tx), curV := 0, curW := 0,
                trace := [Effect.lookupTransform n.m_frameid_reference n.m_frameid_robot] },
        ?_, ?_, ?_, rfl, ?_⟩
      · simp only [getCurrentPoseAndSpeeds, h]
      · simp
      · simp
      · simp [Effect.isPublish]

/-- C5 at a concrete failing lookup: with a listener that throws, the call on
the constructed node with curPose (5, 6, 7), curV 8 and curW 9 returns false and
hands the three values back as they were. -/
theorem getCurrentPoseAndSpeeds_false_iff_lookup_fails_witness :
    ∃ r, getCurrentPoseAndSpeeds failingListener id (ReactiveNav2DNode.ctor exampleParams)
        { x := 5, y := 6, phi := 7 } 8 9 = Except.ok r ∧
      r.ret = false ∧ r.curPose = { x := 5, y := 6, phi := 7 } ∧ r.curV = 8 ∧ r.curW = 9 ∧
      r.trace.countP Effect.isPublish = 0 := by
  obtain ⟨r, hr, hiff, hout, _, hpub⟩ :=
    getCurrentPoseAndSpeeds_false_iff_lookup_fails failingListener id
      (ReactiveNav2DNode.ctor exampleParams) { x := 5, y := 6, phi := 7 } 8 9
  have hfalse : r.ret = false := hiff.mpr ⟨{ what := "lookup failed" }, rfl⟩
  exact ⟨r, hr, hfalse, (hout hfalse).1, (hout hfalse).2.1, (hout hfalse).2.2, hpub⟩

/-- C6: after any finite sequence of obstacle messages, senseObstacles returns
true and outputs the conversion of the last message alone; after the empty
sequence it outputs what was stored before, which for the node as constructed is
the empty set. senseObstacles leaves the node record as it is, so a second call
right after the first outputs the same set. -/
theorem senseObstacles_last_writer_wins {R : Type} (n : ReactiveNav2DNode R) (p : Params R)
    (msgs : List (PointCloud R)) (out out2 : CSimplePointsMap R) :
    (senseObstacles (deliverObstacles n msgs) out).ret = true ∧
    (senseObstacles (deliverObstacles n msgs) out).obstacles =
      (match msgs.getLast? with
       | some last => ros2mrpt last []
       | none => n.m_last_obstacles) ∧
    (senseObstacles (deliverObstacles (ReactiveNav2DNode.ctor p) msgs) out).obstacles =
      (match msgs.getLast? with
       | some last => ros2mrpt last []
       | none => []) ∧
    (senseObstacles (deliverObstacles (ReactiveNav2DNode.ctor p) []) out).ret = true ∧
    (senseObstacles (deliverObstacles (ReactiveNav2DNode.ctor p) []) out).obstacles = [] ∧
    (∀ (earlier : List (PointCloud R)) (last : PointCloud R),
      (senseObstacles (deliverObstacles n (earlier ++ [last])) out).obstacles =
        ros2mrpt last []) ∧
    (senseObstacles (deliverObstacles n msgs) out).parent = deliverObstacles n msgs ∧
    (senseObstacles (senseObstacles (deliverObstacles n msgs) out).parent out2).obstacles =
      (senseObstacles (deliverObstacles n msgs) out).obstacles ∧
    (senseObstacles (senseObstacles (deliverObstacles n msgs) out).parent out2).ret = true := by
  have key : ∀ (m : ReactiveNav2DNode R),
      (deliverObstacles m msgs).m_last_obstacles =
        (match msgs.getLast? with
         | some last => ros2mrpt last []
         | none => m.m_last_obstacles) := by
    intro m
    rcases List.eq_nil_or_concat msgs with h | ⟨earlier, last, h⟩
    · subst h
      simp [deliverObstacles]
    · subst h
      rw [List.concat_eq_append, deliverObstacles_concat]
      simp
  refine ⟨rfl, key n, ?_, rfl, rfl, ?_, rfl, rfl, rfl⟩
  · have := key (ReactiveNav2DNode.ctor p)
    simpa [senseObstacles, ReactiveNav2DNode.ctor] using this
  · intro earlier last
    exact deliverObstacles_concat n earlier last

/-- C7, the claim fails: with the configured tolerance 16777217 (2 ^ 24 + 1, a
double that no float holds) navigateTo hands the engine a request whose
targetAllowedDistance is 16777216, not the configured value. -/
theorem navigateTo_tolerance_rounded :
    (ReactiveNav2DNode.ctor wideParams).m_target_allowed_distance = 16777217 ∧
    engineCalls (navigateTo intToFloat (ReactiveNav2DNode.ctor wideParams)
        { x := 7, y := 8, phi := 0 }).2 =
      ([EngineCall.navigate { target := { x := 7, y := 8 }, targetAllowedDistance := 16777216,
                              targetIsRelative := false }] : List (EngineCall Int)) ∧
    intToFloat (ReactiveNav2DNode.ctor wideParams).m_target_allowed_distance ≠
      (ReactiveNav2DNode.ctor wideParams).m_target_allowed_distance := by
  decide

/-- C7 as amended: navigateTo makes exactly one engine call, navigate(), with
the engine lock held, on a request whose target x and y are the given target's
x and y, whose targetAllowedDistance is m_target_allowed_distance converted to
float, and whose targetIsRelative is false; where the configured tolerance is a
value a float holds (the conversion leaves it as it is), targetAllowedDistance
equals it. The node record after the call is the one before, so the tolerance,
the first-time-init flag and the stored obstacles are unchanged. -/
theorem navigateTo_issues_one_request {R : Type} (toFloat : R → R)
    (n : ReactiveNav2DNode R) (target : TPose2D R) :
    (∃ navParams : TNavigationParams R,
      engineCalls (navigateTo toFloat n target).2 = [EngineCall.navigate navParams] ∧
      navParams.target.x = target.x ∧ navParams.target.y = target.y ∧
      navParams.targetAllowedDistance = toFloat n.m_target_allowed_distance ∧
      (toFloat n.m_target_allowed_distance = n.m_target_allowed_distance →
        navParams.targetAllowedDistance = n.m_target_allowed_distance) ∧
      navParams.targetIsRelative = false) ∧
    (navigateTo toFloat n target).2.countP Effect.isNavigate = 1 ∧
    unlockedEngineCalls (navigateTo toFloat n target).2 = [] ∧
    (navigateTo toFloat n target).1.m_target_allowed_distance = n.m_target_allowed_distance ∧
    (navigateTo toFloat n target).1.m_1st_time_init = n.m_1st_time_init ∧
    (navigateTo toFloat n target).1.m_last_obstacles = n.m_last_obstacles ∧
    (navigateTo toFloat n target).1 = n := by
  refine ⟨⟨_, rfl, rfl, rfl, rfl, fun h => h, rfl⟩, ?_, ?_, rfl, rfl, rfl, rfl⟩
  · simp [navigateTo, List.countP_cons, Effect.isNavigate]
  · simp [navigateTo, unlockedEngineCalls, unlockedEngineCallsFrom]

/-- C7 as amended, at a concrete call: with the configured tolerance 2, which a
float holds, the request for the target (7, 8) carries the tolerance 2. -/
theorem navigateTo_issues_one_request_witness :
    intToFloat (ReactiveNav2DNode.ctor exampleParams).m_target_allowed_distance =
      (ReactiveNav2DNode.ctor exampleParams).m_target_allowed_distance ∧
    ∃ navParams : TNavigationParams Int,
      engineCalls (navigateTo intToFloat (ReactiveNav2DNode.ctor exampleParams)
        { x := 7, y := 8, phi := 0 }).2 = [EngineCall.navigate navParams] ∧
      navParams.target.x = 7 ∧ navParams.target.y = 8 ∧
      navParams.targetAllowedDistance = 2 ∧ navParams.targetIsRelative = false := by
  obtain ⟨⟨navParams, hcall, hx, hy, _, hexact, hrel⟩, _⟩ :=
    navigateTo_issues_one_request intToFloat (ReactiveNav2DNode.ctor exampleParams)
      { x := 7, y := 8, phi := 0 }
  exact ⟨by decide, navParams, hcall, hx, hy, hexact (by decide), hrel⟩

/-- C8: changeSpeeds(v, w) returns true and publishes exactly one command, whose
linear.x is v, whose angular.z is w and whose other four components are zero;
and no handler of the node (timer, goal, obstacle, shape), nor navigateTo, nor
senseObstacles, publishes a command in its own code. -/
theorem changeSpeeds_publishes_command {R : Type} [Zero R] (v w : R) :
    (changeSpeeds v w).1 = true ∧
    (∃ cmd : Twist R, (changeSpeeds v w).2 = [Effect.publish cmd] ∧
      cmd.linear.x = v ∧ cmd.angular.z = w ∧
      cmd.linear.y = 0 ∧ cmd.linear.z = 0 ∧ cmd.angular.x = 0 ∧ cmd.angular.y = 0) ∧
    (changeSpeeds v w).2.countP Effect.isPublish = 1 ∧
    (∀ (T : Type) (toFloat : R → R) (n : ReactiveNav2DNode R) (e : NodeEvent R T),
      (step toFloat n e).2.countP Effect.isPublish = 0) ∧
    (∀ (toFloat : R → R) (n : ReactiveNav2DNode R) (target : TPose2D R),
      (navigateTo toFloat n target).2.countP Effect.isPublish = 0) ∧
    (∀ (n : ReactiveNav2DNode R) (o : CSimplePointsMap R),
      (senseObstacles n o).trace.countP Effect.isPublish = 0) := by
  refine ⟨rfl, ⟨_, rfl, rfl, rfl, rfl, rfl, rfl, rfl⟩, ?_, ?_, ?_,
    fun n o => by simp [senseObstacles, Effect.isPublish]⟩
  · simp [changeSpeeds, Effect.isPublish]
  · intro T toFloat n e
    cases e with
    | timer =>
        cases h : n.m_1st_time_init <;> simp [step, onDoNavigation, h, Effect.isPublish]
    | goal tf trg =>
        simp only [step, onRosGoalReceived, navigateTo]
        split
        · split <;> simp [Effect.isPublish]
        · simp [Effect.isPublish]
    | obstacles obs => simp [step, onRosLocalObstacles, Effect.isPublish]
    | shape sh => simp [step, onRosSetRobotShape, Effect.isPublish]
  · intro toFloat n target
    simp [navigateTo, Effect.isPublish]

/-- C9: when the lookup succeeds with a transform that converts to the 3-D
pose (x, y, z, yaw, pitch, roll), getCurrentPoseAndSpeeds returns true with
curPose (x, y, yaw) and with curV and curW zero, whatever the three arguments
held before; a second lookup whose pose differs in z, pitch and roll only gives
the same result. -/
theorem getCurrentPoseAndSpeeds_projects_pose {R T : Type} [Zero R]
    (m_tf_listener tf2 : TransformListener R T) (convert : T → CPose3D R)
    (n : ReactiveNav2DNode R) (curPose curPose2 : CPose2D R) (curV curW curV2 curW2 : R)
    (tx tx2 : T) (x y z yaw pitch roll z2 pitch2 roll2 : R)
    (h : m_tf_listener.lookupTransform n.m_frameid_reference n.m_frameid_robot = Except.ok tx)
    (hp : convert tx = { x := x, y := y, z := z, yaw := yaw, pitch := pitch, roll := roll })
    (h2 : tf2.lookupTransform n.m_frameid_reference n.m_frameid_robot = Except.ok tx2)
    (hp2 : convert tx2 =
      { x := x, y := y, z := z2, yaw := yaw, pitch := pitch2, roll := roll2 }) :
    getCurrentPoseAndSpeeds m_tf_listener convert n curPose curV curW =
      Except.ok { ret := true, curPose := { x := x, y := y, phi := yaw }, curV := 0, curW := 0,
                  trace := [Effect.lookupTransform n.m_frameid_reference n.m_frameid_robot] } ∧
    getCurrentPoseAndSpeeds tf2 convert n curPose2 curV2 curW2 =
      getCurrentPoseAndSpeeds m_tf_listener convert n curPose curV curW := by
  simp only [getCurrentPoseAndSpeeds, h, h2, hp, hp2, CPose2D.ofCPose3D, and_self]

/-- C9 at concrete lookups: a robot pose (1, 2, 3) with yaw 4, pitch 5, roll 6
and one at (1, 2, 30) with yaw 4, pitch 50, roll 60 both give curPose (1, 2, 4)
and zero speeds. -/
theorem getCurrentPoseAndSpeeds_projects_pose_witness :
    getCurrentPoseAndSpeeds workingListener id (ReactiveNav2DNode.ctor exampleParams)
        { x := 5, y := 6, phi := 7 } 8 9 =
      Except.ok { ret := true, curPose := { x := 1, y := 2, phi := 4 }, curV := 0, curW := 0,
                  trace := [Effect.lookupTransform "/map" "base_link"] } ∧
    getCurrentPoseAndSpeeds tiltedListener id (ReactiveNav2DNode.ctor exampleParams)
        { x := 0, y := 0, phi := 0 } 1 1 =
      getCurrentPoseAndSpeeds workingListener id (ReactiveNav2DNode.ctor exampleParams)
        { x := 5, y := 6, phi := 7 } 8 9 :=
  getCurrentPoseAndSpeeds_projects_pose workingListener tiltedListener id
    (ReactiveNav2DNode.ctor exampleParams) { x := 5, y := 6, phi := 7 }
    { x := 0, y := 0, phi := 0 } 8 9 1 1
    { x := 1, y := 2, z := 3, yaw := 4, pitch := 5, roll := 6 }
    { x := 1, y := 2, z := 30, yaw := 4, pitch := 50, roll := 60 }
    1 2 3 4 5 6 30 50 60 rfl rfl rfl rfl

/-- C10: two goals in the reference frame with the same position x and y, and
any position z and orientation, give the same result of onRosGoalReceived: the
same node record and the same effects, hence the same navigate() request. Each
goal is handed to navigateTo with its orientation component z as heading, and
navigateTo gives the same result for two targets that agree in x and y. -/
theorem goal_orientation_irrelevant {R T : Type} (toFloat : R → R)
    (tf1 tf2 : TransformListener R T)
    (n : ReactiveNav2DNode R) (g1 g2 : PoseStamped R)
    (h1 : g1.header.frame_id = n.m_frameid_reference)
    (h2 : g2.header.frame_id = n.m_frameid_reference)
    (hx : g1.pose.position.x = g2.pose.position.x)
    (hy : g1.pose.position.y = g2.pose.position.y) :
    onRosGoalReceived toFloat tf1 n g1 = onRosGoalReceived toFloat tf2 n g2 ∧
    engineCalls (onRosGoalReceived toFloat tf1 n g1).2 =
      engineCalls (onRosGoalReceived toFloat tf2 n g2).2 ∧
    onRosGoalReceived toFloat tf1 n g1 =
      navigateTo toFloat n
        { x := g1.pose.position.x, y := g1.pose.position.y,
          phi := g1.pose.orientation.z } ∧
    onRosGoalReceived toFloat tf2 n g2 =
      navigateTo toFloat n
        { x := g2.pose.position.x, y := g2.pose.position.y,
          phi := g2.pose.orientation.z } ∧
    (∀ t1 t2 : TPose2D R, t1.x = t2.x → t1.y = t2.y →
      navigateTo toFloat n t1 = navigateTo toFloat n t2) := by
  have e1 : onRosGoalReceived toFloat tf1 n g1 =
      navigateTo toFloat n
        { x := g1.pose.position.x, y := g1.pose.position.y,
          phi := g1.pose.orientation.z } := by
    simp [onRosGoalReceived, h1]
  have e2 : onRosGoalReceived toFloat tf2 n g2 =
      navigateTo toFloat n
        { x := g2.pose.position.x, y := g2.pose.position.y,
          phi := g2.pose.orientation.z } := by
    simp [onRosGoalReceived, h2]
  have hnav : ∀ t1 t2 : TPose2D R, t1.x = t2.x → t1.y = t2.y →
      navigateTo toFloat n t1 = navigateTo toFloat n t2 := by
    intro t1 t2 ha hb
    simp [navigateTo, ha, hb]
  have hsame : onRosGoalReceived toFloat tf1 n g1 = onRosGoalReceived toFloat tf2 n g2 := by
    rw [e1, e2]
    exact hnav _ _ hx hy
  exact ⟨hsame, by rw [hsame], e1, e2, hnav⟩

/-- C10 at concrete goals: in /map, the goal at (7, 8, 9) with orientation
(0, 0, 3, 1) and the goal at (7, 8, 100) with orientation (1, 0, 5, 0) give the
same effects, with the one request for target (7, 8). -/
theorem goal_orientation_irrelevant_witness :
    (exampleGoal "/map" 3).pose.orientation ≠ exampleGoalTurned.pose.orientation ∧
    onRosGoalReceived intToFloat workingListener (ReactiveNav2DNode.ctor exampleParams)
        (exampleGoal "/map" 3) =
      onRosGoalReceived intToFloat failingListener (ReactiveNav2DNode.ctor exampleParams)
        exampleGoalTurned ∧
    engineCalls (onRosGoalReceived intToFloat failingListener (ReactiveNav2DNode.ctor exampleParams)
        exampleGoalTurned).2 =
      ([EngineCall.navigate { target := { x := 7, y := 8 }, targetAllowedDistance := 2,
                              targetIsRelative := false }] : List (EngineCall Int)) :=
  ⟨by decide,
   (goal_orientation_irrelevant intToFloat workingListener failingListener
      (ReactiveNav2DNode.ctor exampleParams) (exampleGoal "/map" 3) exampleGoalTurned
      (by decide) (by decide) rfl rfl).1,
   by decide⟩

end ReactiveNav2D
